import Mathlib

/-!
Verification of the Halagel Helpdesk front-end core (ticket lifecycle and
configuration contract) against its specification.

The development shallowly embeds the two source variants:
* `src/app.js` — the React variant (`ConfigManager`, `APIManager`,
  `ErrorLogger`, the `App` view-state machine, `CreateTicketView.validate`);
* `src/unnamed/part_000` — the plain-DOM variant (`loadConfig`/`saveConfig`,
  `apiCall`, `createTicket`, `handleAdminLogin`, ...).

JavaScript objects produced and consumed by the code are embedded as a `Json`
value tree (objects as ordered association lists, mirroring JS key-insertion
order).  Network effects are embedded by passing the outcome the single
`fetch` of an operation would have (`FetchResult`) and returning, next to the
operation's result, the list of requests actually issued (`FetchCall`), so
that "no fetch is attempted" is a statement about that trace.  Exceptions are
embedded as `Except String` values whose payload is the JS `Error` message.
-/

/-- JSON/JS value trees.  Objects are ordered association lists (JS key
insertion order); numbers are modelled as integers, which covers every number
the helpdesk code produces. -/
inductive Json where
  | null
  | bool (b : Bool)
  | num (n : Int)
  | str (s : String)
  | arr (elems : List Json)
  | obj (fields : List (String × Json))
deriving Repr

/-- JS property access `v.k` for the embedded values: a field lookup on an
object, `undefined` (here `none`) on everything else. -/
def Json.get : Json → String → Option Json
  | .obj fields, k => fields.lookup k
  | _, _ => none

/-- JS truthiness of an embedded value (`null`, `false`, `0` and `""` are
falsy; arrays and objects are truthy). -/
def Json.truthy : Json → Bool
  | .null => false
  | .bool b => b
  | .num n => n != 0
  | .str s => s != ""
  | .arr _ => true
  | .obj _ => true

/-- JS truthiness of a possibly-`undefined` value (`undefined` is falsy). -/
def truthyOpt (o : Option Json) : Bool :=
  match o with
  | some j => j.truthy
  | none => false

/-- `String(v)` as applied by the `Error` constructor to a non-string
argument.  Only the string case is exercised by the helpdesk protocol (the
endpoint's `error` field is a string); array rendering is abbreviated. -/
def Json.toMessage : Json → String
  | .str s => s
  | .num n => toString n
  | .bool b => toString b
  | .null => "null"
  | .arr _ => ""
  | .obj _ => "[object Object]"

/-- `v || fallback` applied to a possibly-`undefined` error field, as in
`new Error(data.error || 'Failed to fetch tickets')`. -/
def jsErrOr (o : Option Json) (fallback : String) : String :=
  match o with
  | some v => if v.truthy then v.toMessage else fallback
  | none => fallback

/-- The whitespace class of JS `\s` restricted to ASCII (space, tab, line
feed, carriage return, vertical tab, form feed), which is what the helpdesk
strings can contain. -/
def jsIsWhitespace (c : Char) : Bool :=
  c == ' ' || c == '\t' || c == '\n' || c == '\r' || c == '\x0b' || c == '\x0c'

/-- JS `\S` (non-whitespace). -/
def isNonWs (c : Char) : Bool := !(jsIsWhitespace c)

/-- JS `String.prototype.trim`. -/
def jsTrim (s : String) : String :=
  String.mk (((s.data.dropWhile jsIsWhitespace).reverse.dropWhile jsIsWhitespace).reverse)

/-- Does `l` start with `pat`? -/
def startsWithChars : List Char → List Char → Bool
  | _, [] => true
  | [], _ :: _ => false
  | c :: cs, p :: ps => c == p && startsWithChars cs ps

/-- Does the character list contain `pat` as a contiguous run? -/
def includesChars (pat : List Char) : List Char → Bool
  | [] => startsWithChars [] pat
  | c :: rest => startsWithChars (c :: rest) pat || includesChars pat rest

/-- JS `s.includes(pat)`. -/
def jsIncludes (s pat : String) : Bool := includesChars pat.data s.data

/-- JS `/\S+@\S+\.\S+/.test s`: the string contains a contiguous run of the
form (non-whitespace)+ `@` (non-whitespace)+ `.` (non-whitespace)+.  Any such
run is witnessed by the position `p` of its `@` and the position `q` of its
literal `.`, with a non-whitespace character directly before `p`, directly
after `q`, and everywhere strictly between `p` and `q` (at least one). -/
def emailPatTest (s : String) : Bool :=
  let cs := s.data
  let n := cs.length
  (List.range n).any fun p =>
    (List.range n).any fun q =>
      decide (1 ≤ p) && decide (p + 2 ≤ q) && decide (q + 2 ≤ n) &&
      (cs.getD p ' ' == '@') && (cs.getD q ' ' == '.') &&
      isNonWs (cs.getD (p - 1) ' ') && isNonWs (cs.getD (q + 1) ' ') &&
      ((List.range (q - p - 1)).all fun i => isNonWs (cs.getD (p + 1 + i) ' '))

/-- A ticket draft as held by the React form state (`formData` in
`CreateTicketView`); its initial state fixes `priority := "medium"` and
`status := "pending"`, and no widget ever edits `status`. -/
structure Draft where
  title : String
  description : String
  email : String
  priority : String
  status : String
deriving DecidableEq, Repr

/-- `CreateTicketView.validate` from `src/app.js` (lines 488-498): the
`errors` object in JS key-insertion order.  `!x.trim()` is "trimmed string is
empty"; the email regex test is `emailPatTest`. -/
def CreateTicketView.validate (d : Draft) : List (String × String) :=
  (if jsTrim d.title = "" then [("title", "Title is required")] else [])
  ++ (if jsTrim d.description = "" then [("description", "Description is required")] else [])
  ++ (if jsTrim d.email = "" then [("email", "Email is required")]
      else if !(emailPatTest d.email) then [("email", "Invalid email format")] else [])

/-- `CreateTicketView.handleSubmit`: forwards the draft to `onSubmit` exactly
when `validate` produced no errors, else submits nothing. -/
def CreateTicketView.handleSubmit (d : Draft) : Option Draft :=
  if CreateTicketView.validate d = [] then some d else none

/-- The validator that claim C2's words describe: identical to the source
validator except that the email field maps to "Email is required" exactly
when the email string is empty (rather than empty-or-whitespace-only).
Written from the claim, for comparison against the source translation. -/
def validateClaimC2 (d : Draft) : List (String × String) :=
  (if jsTrim d.title = "" then [("title", "Title is required")] else [])
  ++ (if jsTrim d.description = "" then [("description", "Description is required")] else [])
  ++ (if d.email = "" then [("email", "Email is required")]
      else if !(emailPatTest d.email) then [("email", "Invalid email format")] else [])

/-- The React variant's configuration record (`ConfigManager.getDefaults`
shape; the settings form always holds exactly these three string fields).
A falsy `webAppUrl` is the empty string. -/
structure Config where
  adminPassword : String
  sheetUrl : String
  webAppUrl : String
deriving DecidableEq, Repr

/-- The plain-DOM variant's module-level `CONFIG` object. -/
structure ConfigU where
  ADMIN_PASSWORD : String
  SHEET_URL : String
  WEB_APP_URL : String
deriving DecidableEq, Repr

/-- Which diagnostic `ConfigManager.get` emitted: nothing, a console warning
(`No configuration found, using defaults`), or an `ErrorLogger.log` entry
(which prints through the console's error channel and appends to the
persisted error log). -/
inductive GetDiag where
  | silent
  | warn
  | errorLogged
deriving DecidableEq, Repr

/-- The state of the `halagel_config` browser-storage cell as
`ConfigManager.get` observes it: `absent` (a `null` — or empty, hence falsy —
raw string), `malformed` (a non-empty raw string on which `JSON.parse`
throws), or `stored j` (a raw string parsing to the value `j`). -/
inductive StoredConfig where
  | absent
  | malformed (raw : String)
  | stored (j : Json)
deriving Repr

/-- `ConfigManager.getDefaults` from `src/app.js`, as the JS object it
returns. -/
def ConfigManager.getDefaults : Json :=
  .obj [("adminPassword", .str "admin123"), ("sheetUrl", .str ""),
        ("webAppUrl", .str "")]

/-- `ConfigManager.get` from `src/app.js` (lines 49-61): absent cell warns
and returns the defaults; a parse failure is caught, logged through
`ErrorLogger.log`, and also yields the defaults; otherwise the parsed value
is returned as-is.  The surrounding try/catch makes the function total: it
never throws, which the embedding reflects by returning a plain pair. -/
def ConfigManager.get : StoredConfig → Json × GetDiag
  | .absent => (ConfigManager.getDefaults, .warn)
  | .malformed _ => (ConfigManager.getDefaults, .errorLogged)
  | .stored j => (j, .silent)

/-- `ConfigManager.set` from `src/app.js` (lines 63-71): serializes the given
object with `JSON.stringify` and writes it to the cell, returning `true`; if
the write throws (storage quota), the error is logged, the cell keeps its
prior state, and `false` is returned.  `JSON.parse` recovers exactly the
stringified value tree, so the post-write cell is modelled as
`StoredConfig.stored config`. -/
def ConfigManager.set (config : Json) (st : StoredConfig) (quotaOk : Bool) :
    StoredConfig × Bool :=
  if quotaOk then (.stored config, true) else (st, false)

/-- One JS object-spread step `{...base, ...overlay}` on ordered field lists
with distinct keys: base keys keep their positions but take the overlay's
value when the overlay also has the key; overlay-only keys follow. -/
def spreadMerge (base overlay : List (String × Json)) : List (String × Json) :=
  (base.map fun kv =>
    match overlay.lookup kv.1 with
    | some w => (kv.1, w)
    | none => kv)
  ++ overlay.filter fun kv => (base.lookup kv.1).isNone

/-- `loadConfig` from `src/unnamed/part_000` (lines 9-14): when the cell
holds a saved object, the new `CONFIG` is `{...CONFIG, ...saved}`; when the
cell is absent, `CONFIG` is left unchanged.  (`saveConfig` only ever stores
an object, so a non-object saved value is unreachable from this program and
left as the unchanged-current case.) -/
def domLoadConfig (current : Json) (saved : Option Json) : Json :=
  match saved, current with
  | some (.obj fs), .obj cs => .obj (spreadMerge cs fs)
  | some _, _ => current
  | none, _ => current

/-- The plain-DOM `CONFIG` object serialized as `saveConfig` stores it. -/
def configUToJson (c : ConfigU) : Json :=
  .obj [("ADMIN_PASSWORD", .str c.ADMIN_PASSWORD),
        ("SHEET_URL", .str c.SHEET_URL),
        ("WEB_APP_URL", .str c.WEB_APP_URL)]

/-- One persisted entry of the bounded error log, with exactly the five
fields `ErrorLogger.log` constructs. -/
structure ErrorLogEntry where
  timestamp : String
  context : String
  message : String
  stack : String
  url : String
deriving DecidableEq, Repr

/-- A JS `Error`-like value as `ErrorLogger.log` reads it: `message` and
`stack` properties (the empty string standing for a falsy/absent property)
and its `String(error)` rendering. -/
structure JsError where
  message : String
  stack : String
  asString : String
deriving DecidableEq, Repr

/-- The entry object built at the top of `ErrorLogger.log`
(`src/app.js` lines 12-18): `error.message || String(error)`,
`error.stack || 'No stack trace'`, plus timestamp, context and page URL. -/
def mkErrorLogEntry (now : String) (e : JsError) (context url : String) :
    ErrorLogEntry :=
  { timestamp := now
    context := context
    message := if e.message = "" then e.asString else e.message
    stack := if e.stack = "" then "No stack trace" else e.stack
    url := url }

/-- The stored-array update inside `ErrorLogger.log` (`src/app.js` lines
23-26): parse the stored array (`[]` when the cell is absent), `push` the new
entry at the end, `shift` one entry off the front when the length exceeds 50,
and write the result back. -/
def ErrorLogger.logStep (logs : List ErrorLogEntry) (entry : ErrorLogEntry) :
    List ErrorLogEntry :=
  let pushed := logs ++ [entry]
  if pushed.length > 50 then pushed.tail else pushed

/-- `ErrorLogger.log`'s effect on the stored array: the try/catch around the
storage access means a failing write (`ok = false`) leaves the stored array
unchanged. -/
def ErrorLogger.log (logs : List ErrorLogEntry) (entry : ErrorLogEntry)
    (ok : Bool) : List ErrorLogEntry :=
  if ok then ErrorLogger.logStep logs entry else logs

/-- The body a `fetch` response yields: `response.json()` either rejects
(`parseFail`, carrying the rejection's message) or resolves to a value. -/
inductive FetchBody where
  | parseFail (msg : String)
  | parsed (j : Json)
deriving Repr

/-- The outcome the one `fetch` of a gateway operation would have: the
promise rejects (transport failure, e.g. connection refused — the browser's
`TypeError` message is `"Failed to fetch"`), or a response arrives with its
`ok` flag, status code, status text, and body. -/
inductive FetchResult where
  | reject (msg : String)
  | response (ok : Bool) (status : Nat) (statusText : String) (body : FetchBody)
deriving Repr

/-- A network request as issued: URL, HTTP method, and JSON body if any.
Gateway operations return the list of requests they actually issued, so that
"no fetch is attempted" is the statement that this list is empty. -/
structure FetchCall where
  url : String
  method : String
  body : Option Json
deriving Repr

/-- The message thrown for a non-2xx response:
`` `HTTP ${response.status}: ${response.statusText}` ``. -/
def httpStatusMsg (status : Nat) (statusText : String) : String :=
  "HTTP " ++ toString status ++ ": " ++ statusText

/-- The user-friendly replacement message of `APIManager.fetchTickets`'s
catch block. -/
def connectionMsg : String :=
  "Cannot connect to Google Sheets. Check your internet connection and Web App URL."

/-- The shared try-block of the four `APIManager` operations applied to a
response: throw `HTTP status: statusText` when `response.ok` is false, then
parse the body (a rejecting `response.json()` throws its message), then throw
`data.error || fallback` when `data.success` is falsy. -/
def requestOutcome (world : FetchResult) (fallback : String) : Except String Json :=
  match world with
  | .reject msg => .error msg
  | .response ok status statusText body =>
    if !ok then .error (httpStatusMsg status statusText)
    else
      match body with
      | .parseFail msg => .error msg
      | .parsed data =>
        if !(truthyOpt (data.get "success")) then
          .error (jsErrOr (data.get "error") fallback)
        else .ok data

/-- `APIManager.fetchTickets` from `src/app.js` (lines 102-136): a falsy
`webAppUrl` throws the configuration message before any fetch; otherwise one
GET request is issued, a success response yields `data.tickets || []`, and
the catch block replaces any caught message containing `'Failed to fetch'`
with `connectionMsg` and rethrows every other message unchanged. -/
def APIManager.fetchTickets (config : Config) (world : FetchResult) :
    Except String Json × List FetchCall :=
  if config.webAppUrl = "" then
    (.error "Web App URL not configured. Please configure in Settings.", [])
  else
    let call : FetchCall := { url := config.webAppUrl, method := "GET", body := none }
    match requestOutcome world "Failed to fetch tickets" with
    | .ok data =>
      (.ok (if truthyOpt (data.get "tickets") then (data.get "tickets").getD .null
            else .arr []), [call])
    | .error m =>
      if jsIncludes m "Failed to fetch" then (.error connectionMsg, [call])
      else (.error m, [call])

/-- The ticket object of the React create request:
`{...formData, createdAt: now}` in JS key order. -/
def reactTicketJson (d : Draft) (now : String) : Json :=
  .obj [("title", .str d.title), ("description", .str d.description),
        ("email", .str d.email), ("priority", .str d.priority),
        ("status", .str d.status), ("createdAt", .str now)]

/-- The request body of `APIManager.createTicket`:
`{action: 'create', ticket: {...ticket, createdAt: now}}`. -/
def reactCreateBody (d : Draft) (now : String) : Json :=
  .obj [("action", .str "create"), ("ticket", reactTicketJson d now)]

/-- `APIManager.createTicket` from `src/app.js` (lines 138-174): falsy
`webAppUrl` throws `'Web App URL not configured'` before any fetch; otherwise
one POST is issued and the catch block logs and rethrows the caught error
unchanged (no `'Failed to fetch'` replacement here). -/
def APIManager.createTicket (config : Config) (d : Draft) (now : String)
    (world : FetchResult) : Except String Json × List FetchCall :=
  if config.webAppUrl = "" then (.error "Web App URL not configured", [])
  else
    ((requestOutcome world "Failed to create ticket"),
     [{ url := config.webAppUrl, method := "POST", body := some (reactCreateBody d now) }])

/-- `APIManager.updateTicket` from `src/app.js` (lines 176-210): same shape
as `createTicket` with body `{action: 'update', id, status}` and fallback
`'Failed to update ticket'`; the catch rethrows unchanged. -/
def APIManager.updateTicket (config : Config) (id : Json) (status : String)
    (world : FetchResult) : Except String Json × List FetchCall :=
  if config.webAppUrl = "" then (.error "Web App URL not configured", [])
  else
    ((requestOutcome world "Failed to update ticket"),
     [{ url := config.webAppUrl, method := "POST",
        body := some (.obj [("action", .str "update"), ("id", id),
                            ("status", .str status)]) }])

/-- `APIManager.deleteTicket` from `src/app.js` (lines 212-245): same shape
with body `{action: 'delete', id}` and fallback `'Failed to delete ticket'`;
the catch rethrows unchanged. -/
def APIManager.deleteTicket (config : Config) (id : Json)
    (world : FetchResult) : Except String Json × List FetchCall :=
  if config.webAppUrl = "" then (.error "Web App URL not configured", [])
  else
    ((requestOutcome world "Failed to delete ticket"),
     [{ url := config.webAppUrl, method := "POST",
        body := some (.obj [("action", .str "delete"), ("id", id)]) }])

/-- The `{success: false, error: msg}` object the plain-DOM `apiCall` returns
from its catch block. -/
def jsonFalseError (msg : String) : Json :=
  .obj [("success", .bool false), ("error", .str msg)]

/-- `apiCall` from `src/unnamed/part_000` (lines 22-44): always issues one
fetch at `CONFIG.WEB_APP_URL` (no configuration check at all), POST exactly
when a body is given; a rejecting fetch or a rejecting `response.json()` is
caught and turned into `{success: false, error: error.message}`; `response.ok`
and the status are never inspected, so any parsed body is returned verbatim.
The function is total — no exception ever propagates — which the embedding
reflects by returning a plain value. -/
def domApiCall (cfg : ConfigU) (data : Option Json) (world : FetchResult) :
    Json × List FetchCall :=
  let call : FetchCall :=
    { url := cfg.WEB_APP_URL, method := if data.isSome then "POST" else "GET",
      body := data }
  match world with
  | .reject msg => (jsonFalseError msg, [call])
  | .response _ _ _ (.parseFail msg) => (jsonFalseError msg, [call])
  | .response _ _ _ (.parsed j) => (j, [call])

/-- `getTickets` from `src/unnamed/part_000` (lines 47-49). -/
def domGetTickets (cfg : ConfigU) (world : FetchResult) : Json × List FetchCall :=
  domApiCall cfg none world

/-- The ticket object of the plain-DOM create request:
`{...ticket, status: 'open', createdAt: now}` where the form ticket has the
fields title, description, email, priority. -/
def domTicketJson (title description email priority now : String) : Json :=
  .obj [("title", .str title), ("description", .str description),
        ("email", .str email), ("priority", .str priority),
        ("status", .str "open"), ("createdAt", .str now)]

/-- The request body of the plain-DOM `createTicket`. -/
def domCreateBody (title description email priority now : String) : Json :=
  .obj [("action", .str "create"),
        ("ticket", domTicketJson title description email priority now)]

/-- `createTicket` from `src/unnamed/part_000` (lines 52-61). -/
def domCreateTicket (cfg : ConfigU) (title description email priority now : String)
    (world : FetchResult) : Json × List FetchCall :=
  domApiCall cfg (some (domCreateBody title description email priority now)) world

/-- `updateTicketStatus` from `src/unnamed/part_000` (lines 64-70). -/
def domUpdateTicketStatus (cfg : ConfigU) (id : Json) (status : String)
    (world : FetchResult) : Json × List FetchCall :=
  domApiCall cfg
    (some (.obj [("action", .str "update"), ("id", id), ("status", .str status)]))
    world

/-- `deleteTicket` from `src/unnamed/part_000` (lines 73-78). -/
def domDeleteTicket (cfg : ConfigU) (id : Json) (world : FetchResult) :
    Json × List FetchCall :=
  domApiCall cfg (some (.obj [("action", .str "delete"), ("id", id)])) world

/-- The five screens of the React `App`'s `view` state. -/
inductive View where
  | home
  | create
  | login
  | admin
  | settings
deriving DecidableEq, Repr

/-- The React `App` component's state hooks: current view, in-memory ticket
list (the `data.tickets` value of the last successful load), the loading
flag, the error and success banners, and the admin session flag. -/
structure AppState where
  view : View
  tickets : Json
  loading : Bool
  error : Option String
  success : Option String
  isAdmin : Bool
deriving Repr

/-- `loadTickets` from `src/app.js` (lines 267-280), run to completion:
sets loading and clears the error, stores the fetched tickets and a success
banner on success, or the failure's message in the error banner; the
`finally` clears loading.  The view is never touched. -/
def loadTickets (cfg : Config) (world : FetchResult) (st : AppState) : AppState :=
  let st1 := { st with loading := true, error := none }
  let st2 :=
    match (APIManager.fetchTickets cfg world).1 with
    | .ok t => { st1 with tickets := t, success := some "Tickets loaded successfully!" }
    | .error m => { st1 with error := some m }
  { st2 with loading := false }

/-- `handleCreateTicket` from `src/app.js` (lines 282-298), run to
completion with `w1` the create request's outcome and `w2` the outcome of
the reload `loadTickets` performs when the session is an admin one: on
success the view moves to home with a success banner (plus the admin-only
reload); on failure the caught message lands in the error banner and the
view is unchanged. -/
def handleCreateTicket (cfg : Config) (d : Draft) (now : String)
    (w1 w2 : FetchResult) (st : AppState) : AppState :=
  let st1 := { st with loading := true, error := none }
  let st2 :=
    match (APIManager.createTicket cfg d now w1).1 with
    | .ok _ =>
      let st' := { st1 with
        success := some "Ticket created successfully! Check your email for confirmation.",
        view := View.home }
      if st'.isAdmin then loadTickets cfg w2 st' else st'
    | .error m => { st1 with error := some m }
  { st2 with loading := false }

/-- `handleUpdateStatus` from `src/app.js` (lines 300-313), run to
completion: on success a banner is set and the list reloaded; on failure the
message lands in the error banner and the view is unchanged. -/
def handleUpdateStatus (cfg : Config) (id : Json) (status : String)
    (w1 w2 : FetchResult) (st : AppState) : AppState :=
  let st1 := { st with loading := true, error := none }
  let st2 :=
    match (APIManager.updateTicket cfg id status w1).1 with
    | .ok _ => loadTickets cfg w2 { st1 with success := some "Ticket status updated!" }
    | .error m => { st1 with error := some m }
  { st2 with loading := false }

/-- `handleDeleteTicket` from `src/app.js` (lines 315-330), run to
completion: a declined confirmation returns before touching anything; on
success a banner is set and the list reloaded; on failure the message lands
in the error banner and the view is unchanged. -/
def handleDeleteTicket (cfg : Config) (id : Json) (confirmed : Bool)
    (w1 w2 : FetchResult) (st : AppState) : AppState :=
  if !confirmed then st
  else
    let st1 := { st with loading := true, error := none }
    let st2 :=
      match (APIManager.deleteTicket cfg id w1).1 with
      | .ok _ => loadTickets cfg w2 { st1 with success := some "Ticket deleted successfully!" }
      | .error m => { st1 with error := some m }
    { st2 with loading := false }

/-- `handleAdminLogin` from `src/app.js` (lines 332-342): a matching
password sets the admin flag, moves to the admin view, sets a success banner
and invokes `loadTickets`; any other password only sets the error banner.
The returned flag records whether `loadTickets` was invoked. -/
def handleAdminLogin (cfg : Config) (password : String) (world : FetchResult)
    (st : AppState) : AppState × Bool :=
  if password = cfg.adminPassword then
    (loadTickets cfg world
      { st with isAdmin := true, view := View.admin,
                success := some "Admin login successful!" }, true)
  else
    ({ st with error := some "Invalid admin password!" }, false)

/-- A protocol failure: the endpoint is reachable (HTTP 200) and reports
`{success: false, error: x}`. -/
def protoFail (x : String) : FetchResult :=
  .response true 200 "OK" (.parsed (.obj [("success", .bool false), ("error", .str x)]))

/-- Replace the `status` field inside the `ticket` field of a create-request
body, keeping everything else; used to state how the two variants' create
requests relate. -/
def setTicketStatus (j : Json) (s : String) : Json :=
  match j with
  | .obj fields =>
    .obj (fields.map fun kv =>
      match kv with
      | ("ticket", .obj tf) =>
        ("ticket", .obj (tf.map fun kv2 =>
          if kv2.1 = "status" then ("status", .str s) else kv2))
      | other => other)
  | other => other

/-- A configured React-variant configuration. -/
def cfgDemo : Config :=
  { adminPassword := "admin123", sheetUrl := "",
    webAppUrl := "https://script.google.com/macros/s/demo/exec" }

/-- A React-variant configuration with no Web App URL. -/
def cfgEmptyDemo : Config :=
  { adminPassword := "admin123", sheetUrl := "", webAppUrl := "" }

/-- A configured plain-DOM-variant configuration. -/
def cfgUDemo : ConfigU :=
  { ADMIN_PASSWORD := "admin123", SHEET_URL := "",
    WEB_APP_URL := "https://script.google.com/macros/s/demo/exec" }

/-- The plain-DOM-variant configuration in its initial state (no URL). -/
def cfgUEmptyDemo : ConfigU :=
  { ADMIN_PASSWORD := "admin123", SHEET_URL := "", WEB_APP_URL := "" }

/-- A valid concrete draft as the React form holds it. -/
def draftDemo : Draft :=
  { title := "Printer broken", description := "It smokes", email := "a@b.c",
    priority := "medium", status := "pending" }

/-- The app state while sitting on the admin-login screen. -/
def stLoginDemo : AppState :=
  { view := .login, tickets := .arr [], loading := false, error := none,
    success := none, isAdmin := false }

/-- A concrete persisted error-log entry. -/
def entryDemo : ErrorLogEntry :=
  { timestamp := "2024-01-01T00:00:00.000Z", context := "APIManager.fetchTickets",
    message := "Failed to fetch", stack := "No stack trace",
    url := "https://halagel.example/index.html" }

/-- Claim C2, as stated, is false at the draft whose email is the single
space `" "`: the email is not empty, so the claim's mapping puts
`"Invalid email format"` under the email key, but the source validator
trims the email before the emptiness check and returns
`"Email is required"`. -/
theorem c2_counterexample :
    CreateTicketView.validate
        { title := "t", description := "d", email := " ",
          priority := "medium", status := "pending" }
      = [("email", "Email is required")]
  ∧ validateClaimC2
        { title := "t", description := "d", email := " ",
          priority := "medium", status := "pending" }
      = [("email", "Invalid email format")]
  ∧ (" " : String) ≠ ""
  ∧ ("Email is required" : String) ≠ "Invalid email format" := by
  refine ⟨by decide, by decide, by decide, by decide⟩

/-- Claim C2 as amended: the key set of `validateTicketDraft` is exactly the
offending fields, where the email field maps to `"Email is required"` iff the
email is empty or whitespace-only (not merely empty), else to
`"Invalid email format"` iff the email fails the non-whitespace `@`
non-whitespace `.` non-whitespace pattern test; and submission forwards the
draft to the gateway's create operation exactly when the mapping is empty. -/
theorem c2_validate_amended (d : Draft) :
    ((CreateTicketView.validate d).map Prod.fst
      = (if jsTrim d.title = "" then ["title"] else [])
        ++ (if jsTrim d.description = "" then ["description"] else [])
        ++ (if jsTrim d.email = "" ∨ emailPatTest d.email = false then ["email"] else []))
  ∧ ((CreateTicketView.validate d).lookup "title"
      = if jsTrim d.title = "" then some "Title is required" else none)
  ∧ ((CreateTicketView.validate d).lookup "description"
      = if jsTrim d.description = "" then some "Description is required" else none)
  ∧ ((CreateTicketView.validate d).lookup "email"
      = if jsTrim d.email = "" then some "Email is required"
        else if emailPatTest d.email = false then some "Invalid email format" else none)
  ∧ (CreateTicketView.handleSubmit d = none ↔ CreateTicketView.validate d ≠ []) := by
  unfold CreateTicketView.handleSubmit CreateTicketView.validate
  by_cases h1 : jsTrim d.title = "" <;> by_cases h2 : jsTrim d.description = "" <;>
    by_cases h3 : jsTrim d.email = "" <;> cases h4 : emailPatTest d.email <;>
    simp [h1, h2, h3, h4, List.lookup]

/-- Witness for the amended claim C2 at a concrete draft with an empty
title: submission is blocked. -/
theorem c2_validate_amended_witness :
    CreateTicketView.handleSubmit
        { title := "", description := "d", email := "a@b.c",
          priority := "medium", status := "pending" }
      = none :=
  (c2_validate_amended
      { title := "", description := "d", email := "a@b.c",
        priority := "medium", status := "pending" }).2.2.2.2.mpr
    (by decide)

/-- Claim C1, as stated, is false for the plain-DOM variant's operations: with
an unconfigured (empty) `WEB_APP_URL`, `getTickets` still issues a fetch (at
the empty URL) and surfaces the transport failure as
`{success: false, error: ...}` rather than failing with a configuration error
before any network activity. -/
theorem c1_counterexample :
    (domGetTickets cfgUEmptyDemo (.reject "Failed to fetch")).2
      = [{ url := "", method := "GET", body := none }]
  ∧ (domGetTickets cfgUEmptyDemo (.reject "Failed to fetch")).1
      = jsonFalseError "Failed to fetch" := by
  exact ⟨rfl, rfl⟩

/-- Claim C1 as amended: in the React variant all four `APIManager`
operations fail with their configuration message and an empty request trace
(no fetch) when `webAppUrl` is empty; the plain-DOM variant's `apiCall`
performs no configuration check and issues exactly one fetch on every call,
whatever the configured URL. -/
theorem c1_amended (cfg : Config) (world : FetchResult) (d : Draft)
    (now status : String) (id : Json) (h : cfg.webAppUrl = "") :
    APIManager.fetchTickets cfg world
      = (.error "Web App URL not configured. Please configure in Settings.", [])
  ∧ APIManager.createTicket cfg d now world = (.error "Web App URL not configured", [])
  ∧ APIManager.updateTicket cfg id status world = (.error "Web App URL not configured", [])
  ∧ APIManager.deleteTicket cfg id world = (.error "Web App URL not configured", [])
  ∧ (∀ (cu : ConfigU) (data : Option Json) (w : FetchResult),
      (domApiCall cu data w).2.length = 1) := by
  refine ⟨?_, ?_, ?_, ?_, ?_⟩
  · simp [APIManager.fetchTickets, h]
  · simp [APIManager.createTicket, h]
  · simp [APIManager.updateTicket, h]
  · simp [APIManager.deleteTicket, h]
  · intro cu data w
    cases w with
    | reject m => rfl
    | response ok s t b => cases b <;> rfl

/-- Witness for the amended claim C1 at the default (empty) configuration. -/
theorem c1_amended_witness :
    APIManager.fetchTickets cfgEmptyDemo (.reject "Failed to fetch")
      = (.error "Web App URL not configured. Please configure in Settings.", []) :=
  (c1_amended cfgEmptyDemo (.reject "Failed to fetch") draftDemo "now" "pending"
    .null rfl).1

/-- Claim C3, as stated, is false: a transport failure (`fetch` rejecting
with `"Failed to fetch"`) is mapped to the user-friendly connection-check
message by `fetchTickets` only; `createTicket`'s catch block rethrows the
raw transport message unchanged, so the error mapping is not identical
across the four operations. -/
theorem c3_counterexample :
    (APIManager.createTicket cfgDemo draftDemo "2024-01-01T00:00:00.000Z"
        (.reject "Failed to fetch")).1
      = .error "Failed to fetch"
  ∧ (APIManager.fetchTickets cfgDemo (.reject "Failed to fetch")).1
      = .error connectionMsg
  ∧ ("Failed to fetch" : String) ≠ connectionMsg := by
  refine ⟨rfl, rfl, by decide⟩

/-- Claim C3 as amended: with a configured URL, `fetchTickets` replaces any
failure message containing `'Failed to fetch'` — a transport failure, but
also an endpoint-reported error `X` that happens to contain that phrase —
with the connection-check message and surfaces every other message (in
particular an endpoint-reported `X` without that phrase) verbatim; the other
three operations perform no such mapping, surfacing the transport message
and any endpoint-reported `X` verbatim. -/
theorem c3_amended (cfg : Config) (h : cfg.webAppUrl ≠ "") (m x : String)
    (hx : x ≠ "") (d : Draft) (now status : String) (id : Json) :
    (APIManager.fetchTickets cfg (.reject m)).1
      = .error (if jsIncludes m "Failed to fetch" then connectionMsg else m)
  ∧ (APIManager.fetchTickets cfg (protoFail x)).1
      = .error (if jsIncludes x "Failed to fetch" then connectionMsg else x)
  ∧ (APIManager.createTicket cfg d now (.reject m)).1 = .error m
  ∧ (APIManager.createTicket cfg d now (protoFail x)).1 = .error x
  ∧ (APIManager.updateTicket cfg id status (.reject m)).1 = .error m
  ∧ (APIManager.updateTicket cfg id status (protoFail x)).1 = .error x
  ∧ (APIManager.deleteTicket cfg id (.reject m)).1 = .error m
  ∧ (APIManager.deleteTicket cfg id (protoFail x)).1 = .error x := by
  refine ⟨?_, ?_, ?_, ?_, ?_, ?_, ?_, ?_⟩
  · cases hc : jsIncludes m "Failed to fetch" <;>
      simp [APIManager.fetchTickets, requestOutcome, h, hc]
  · cases hc : jsIncludes x "Failed to fetch" <;>
      simp [APIManager.fetchTickets, requestOutcome, protoFail, h, hc, Json.get,
            List.lookup, truthyOpt, Json.truthy, hx, jsErrOr, Json.toMessage]
  · simp [APIManager.createTicket, requestOutcome, h]
  · simp [APIManager.createTicket, requestOutcome, protoFail, h, Json.get,
          List.lookup, truthyOpt, Json.truthy, hx, jsErrOr, Json.toMessage]
  · simp [APIManager.updateTicket, requestOutcome, h]
  · simp [APIManager.updateTicket, requestOutcome, protoFail, h, Json.get,
          List.lookup, truthyOpt, Json.truthy, hx, jsErrOr, Json.toMessage]
  · simp [APIManager.deleteTicket, requestOutcome, h]
  · simp [APIManager.deleteTicket, requestOutcome, protoFail, h, Json.get,
          List.lookup, truthyOpt, Json.truthy, hx, jsErrOr, Json.toMessage]

/-- Witness for the amended claim C3: a concrete endpoint-reported error is
surfaced verbatim by `createTicket`. -/
theorem c3_amended_witness :
    (APIManager.createTicket cfgDemo draftDemo "now" (protoFail "Sheet is locked")).1
      = .error "Sheet is locked" :=
  (c3_amended cfgDemo (by decide) "Failed to fetch" "Sheet is locked" (by decide)
    draftDemo "now" "pending" .null).2.2.2.1

/-- Claim C4: from the login screen (admin flag clear), submitting the
entered password sets the session flag and moves to the admin dashboard —
also invoking the ticket-list load — exactly when it equals the configured
admin password; any other entry leaves the flag clear, stays on the login
view, and surfaces `'Invalid admin password!'`. -/
theorem c4_login (cfg : Config) (pw : String) (world : FetchResult)
    (st : AppState) (hv : st.view = .login) (ha : st.isAdmin = false) :
    (((handleAdminLogin cfg pw world st).1.isAdmin = true
        ∧ (handleAdminLogin cfg pw world st).1.view = View.admin)
      ↔ pw = cfg.adminPassword)
  ∧ (pw = cfg.adminPassword → (handleAdminLogin cfg pw world st).2 = true)
  ∧ (pw ≠ cfg.adminPassword →
      (handleAdminLogin cfg pw world st).1.isAdmin = false
      ∧ (handleAdminLogin cfg pw world st).1.view = View.login
      ∧ (handleAdminLogin cfg pw world st).1.error = some "Invalid admin password!") := by
  by_cases hp : pw = cfg.adminPassword
  · unfold handleAdminLogin loadTickets
    cases hr : (APIManager.fetchTickets cfg world).1 <;> simp [hp, hr]
  · unfold handleAdminLogin
    simp [hp, hv, ha]

/-- Witness for claim C4: the configured password logs in and lands on the
admin dashboard. -/
theorem c4_login_witness :
    (handleAdminLogin cfgDemo "admin123" (.reject "Failed to fetch") stLoginDemo).1.isAdmin = true
  ∧ (handleAdminLogin cfgDemo "admin123" (.reject "Failed to fetch") stLoginDemo).1.view = View.admin :=
  (c4_login cfgDemo "admin123" (.reject "Failed to fetch") stLoginDemo rfl rfl).1.mpr rfl

/-- Claim C5: whenever the gateway operation a transition invokes fails, the
view-state machine stays in its current view and the failure's message is
surfaced in the error banner — for the list load, create (whatever the
outcome `w2` of any follow-up reload), status update, and (confirmed)
delete. -/
theorem c5_failure_keeps_state (cfg : Config) (st : AppState) (d : Draft)
    (now status : String) (id : Json) (w w2 : FetchResult) (m : String) :
    ((APIManager.fetchTickets cfg w).1 = .error m →
        (loadTickets cfg w st).view = st.view
        ∧ (loadTickets cfg w st).error = some m)
  ∧ ((APIManager.createTicket cfg d now w).1 = .error m →
        (handleCreateTicket cfg d now w w2 st).view = st.view
        ∧ (handleCreateTicket cfg d now w w2 st).error = some m)
  ∧ ((APIManager.updateTicket cfg id status w).1 = .error m →
        (handleUpdateStatus cfg id status w w2 st).view = st.view
        ∧ (handleUpdateStatus cfg id status w w2 st).error = some m)
  ∧ ((APIManager.deleteTicket cfg id w).1 = .error m →
        (handleDeleteTicket cfg id true w w2 st).view = st.view
        ∧ (handleDeleteTicket cfg id true w w2 st).error = some m) := by
  refine ⟨fun h => ?_, fun h => ?_, fun h => ?_, fun h => ?_⟩ <;>
    simp [loadTickets, handleCreateTicket, handleUpdateStatus, handleDeleteTicket, h]

/-- Witness for claim C5: with no configured URL, a create attempt fails with
the configuration error, the machine stays on its current view, and the
message is surfaced. -/
theorem c5_failure_keeps_state_witness :
    (handleCreateTicket cfgEmptyDemo draftDemo "now" (.reject "x") (.reject "x") stLoginDemo).view
      = stLoginDemo.view
  ∧ (handleCreateTicket cfgEmptyDemo draftDemo "now" (.reject "x") (.reject "x") stLoginDemo).error
      = some "Web App URL not configured" :=
  (c5_failure_keeps_state cfgEmptyDemo stLoginDemo draftDemo "now" "pending" .null
    (.reject "x") (.reject "x") "Web App URL not configured").2.1 rfl

/-- Claim C6: a configuration record saved by a succeeding `set` is returned
by the next `get` deep-equal (here: as the identical value tree) — no field
added, dropped, coerced, or merged — and, in the plain-DOM variant, loading
a record `saveConfig` stored merges it over the in-memory defaults without
changing any of its values, because the stored record carries all three
keys. -/
theorem c6_roundtrip (c : Json) (st : StoredConfig) (q : Bool)
    (h : (ConfigManager.set c st q).2 = true) :
    ConfigManager.get (ConfigManager.set c st q).1 = (c, GetDiag.silent)
  ∧ (∀ cur saved : ConfigU,
      domLoadConfig (configUToJson cur) (some (configUToJson saved))
        = configUToJson saved) := by
  constructor
  · cases q with
    | true => rfl
    | false => simp [ConfigManager.set] at h
  · intro cur saved
    simp [domLoadConfig, configUToJson, spreadMerge, List.lookup, List.filter]

/-- Witness for claim C6 at a concrete configuration record. -/
theorem c6_roundtrip_witness :
    ConfigManager.get
        (ConfigManager.set
          (.obj [("adminPassword", .str "pw12345"), ("sheetUrl", .str ""),
                 ("webAppUrl", .str "https://script.google.com/macros/s/demo/exec")])
          .absent true).1
      = (.obj [("adminPassword", .str "pw12345"), ("sheetUrl", .str ""),
               ("webAppUrl", .str "https://script.google.com/macros/s/demo/exec")],
         GetDiag.silent) :=
  (c6_roundtrip
    (.obj [("adminPassword", .str "pw12345"), ("sheetUrl", .str ""),
           ("webAppUrl", .str "https://script.google.com/macros/s/demo/exec")])
    .absent true rfl).1

/-- Claim C7, as stated, is false on its logging half: on a parse failure
`ConfigManager.get` does return the defaults, but it logs through
`ErrorLogger.log` (the console's error channel plus the persisted error
log), not a console warning — the warning is emitted only on absence. -/
theorem c7_counterexample :
    ConfigManager.get (.malformed "not json")
      = (ConfigManager.getDefaults, GetDiag.errorLogged)
  ∧ GetDiag.errorLogged ≠ GetDiag.warn := by
  exact ⟨rfl, by decide⟩

/-- Claim C7 as amended: `get()` never throws (it is total on every storage
state); on an absent cell it returns exactly the default configuration
adminPassword `admin123`, sheetUrl empty, webAppUrl empty, and logs a console
warning; on a parse failure it returns the same defaults but logs through
`ErrorLogger` instead of warning; otherwise it returns the parsed stored
record as-is. -/
theorem c7_get_amended :
    ConfigManager.get .absent = (ConfigManager.getDefaults, GetDiag.warn)
  ∧ (∀ r, ConfigManager.get (.malformed r) = (ConfigManager.getDefaults, GetDiag.errorLogged))
  ∧ (∀ j, ConfigManager.get (.stored j) = (j, GetDiag.silent))
  ∧ ConfigManager.getDefaults
      = .obj [("adminPassword", .str "admin123"), ("sheetUrl", .str ""),
              ("webAppUrl", .str "")] := by
  exact ⟨rfl, fun r => rfl, fun j => rfl, rfl⟩

/-- Claim C8, as stated, is false: for the same draft submitted at the same
instant, the two variants' create requests differ in the ticket's status
field — the React variant sends the form state's `'pending'`, the plain-DOM
variant stamps `'open'` — so the request bodies are not equal. -/
theorem c8_counterexample :
    ((reactCreateBody draftDemo "2024-01-01T00:00:00.000Z").get "ticket").bind
        (fun t => t.get "status") = some (.str "pending")
  ∧ ((domCreateBody "Printer broken" "It smokes" "a@b.c" "medium"
        "2024-01-01T00:00:00.000Z").get "ticket").bind (fun t => t.get "status")
      = some (.str "open")
  ∧ reactCreateBody draftDemo "2024-01-01T00:00:00.000Z"
      ≠ domCreateBody "Printer broken" "It smokes" "a@b.c" "medium"
          "2024-01-01T00:00:00.000Z" := by
  refine ⟨rfl, rfl, fun hEq => ?_⟩
  have h2 : (some (Json.str "pending") : Option Json) = some (Json.str "open") :=
    congrArg (fun j => (j.get "ticket").bind (fun t => t.get "status")) hEq
  exact (by decide : ("pending" : String) ≠ "open") (Json.str.inj (Option.some.inj h2))

/-- Claim C8 as amended: for the same draft at the same instant the two
variants' create requests agree on the action tag `'create'` and on the
title, description, email, priority and createdAt fields — the plain-DOM
body is exactly the React body with the ticket status replaced — but the
status differs (`'pending'` vs `'open'`); and the failure behaviour differs:
on a transport failure the React `createTicket` rejects with the error while
the plain-DOM one resolves with `{success: false, error: message}`. -/
theorem c8_amended (t de em pr now msg : String) (cfg : Config) (cu : ConfigU)
    (h : cfg.webAppUrl ≠ "") :
    domCreateBody t de em pr now
      = setTicketStatus (reactCreateBody ⟨t, de, em, pr, "pending"⟩ now) "open"
  ∧ ((reactCreateBody ⟨t, de, em, pr, "pending"⟩ now).get "ticket").bind
        (fun x => x.get "status") = some (.str "pending")
  ∧ ((domCreateBody t de em pr now).get "ticket").bind (fun x => x.get "status")
      = some (.str "open")
  ∧ (APIManager.createTicket cfg ⟨t, de, em, pr, "pending"⟩ now (.reject msg)).2
      = [⟨cfg.webAppUrl, "POST", some (reactCreateBody ⟨t, de, em, pr, "pending"⟩ now)⟩]
  ∧ (APIManager.createTicket cfg ⟨t, de, em, pr, "pending"⟩ now (.reject msg)).1
      = .error msg
  ∧ (domCreateTicket cu t de em pr now (.reject msg)).1 = jsonFalseError msg := by
  refine ⟨rfl, rfl, rfl, ?_, ?_, rfl⟩
  · simp [APIManager.createTicket, h]
  · simp [APIManager.createTicket, requestOutcome, h]

/-- Witness for the amended claim C8: the plain-DOM create resolves with a
`success: false` object on a transport failure. -/
theorem c8_amended_witness :
    (domCreateTicket cfgUDemo "Printer broken" "It smokes" "a@b.c" "medium" "now"
        (.reject "Failed to fetch")).1 = jsonFalseError "Failed to fetch" :=
  (c8_amended "Printer broken" "It smokes" "a@b.c" "medium" "now" "Failed to fetch"
    cfgDemo cfgUDemo (by decide)).2.2.2.2.2

/-- Claim C9: starting from a stored error log within the bound, one
`ErrorLogger.log` call keeps it at ≤ 50 entries; entries are appended at the
end, so when the log is full the single `shift` evicts the head — the oldest
entry — first; a failing storage write leaves the stored array unchanged.
Each stored entry is an `ErrorLogEntry`, which has exactly the five fields
timestamp, context, message, stack(-or-placeholder, per `mkErrorLogEntry`)
and originating URL. -/
theorem c9_log_bounded (logs : List ErrorLogEntry) (e : ErrorLogEntry) (ok : Bool)
    (h : logs.length ≤ 50) :
    (ErrorLogger.log logs e ok).length ≤ 50
  ∧ (ok = true → logs.length < 50 → ErrorLogger.log logs e ok = logs ++ [e])
  ∧ (ok = true → logs.length = 50 → ErrorLogger.log logs e ok = logs.tail ++ [e])
  ∧ (ok = false → ErrorLogger.log logs e ok = logs) := by
  cases ok with
  | false =>
    exact ⟨by simpa [ErrorLogger.log] using h,
           fun hc _ => by simp at hc,
           fun hc _ => by simp at hc,
           fun _ => by simp [ErrorLogger.log]⟩
  | true =>
    rcases lt_or_eq_of_le h with hlt | heq
    · have hcond : ¬(50 < logs.length + 1) := by omega
      refine ⟨?_, fun _ _ => ?_, fun _ h50 => absurd h50 (by omega),
              fun hc => by simp at hc⟩
      · simp [ErrorLogger.log, ErrorLogger.logStep, hcond]
        omega
      · simp [ErrorLogger.log, ErrorLogger.logStep, hcond]
    · obtain ⟨a, as, rfl⟩ : ∃ a as, logs = a :: as := by
        cases logs with
        | nil => exact absurd heq (by simp)
        | cons a as => exact ⟨a, as, rfl⟩
      have hlen : as.length = 49 := by simp at heq; omega
      have hcond : 50 < as.length + 1 + 1 := by omega
      refine ⟨?_, fun _ h50 => absurd h50 (by omega), fun _ _ => ?_,
              fun hc => by simp at hc⟩
      · simp [ErrorLogger.log, ErrorLogger.logStep, hcond, hlen]
      · simp [ErrorLogger.log, ErrorLogger.logStep, hcond]

/-- Witness for claim C9: logging onto a full (50-entry) log evicts down to
the bound. -/
theorem c9_log_bounded_witness :
    (ErrorLogger.log (List.replicate 50 entryDemo) entryDemo true).length ≤ 50 :=
  (c9_log_bounded (List.replicate 50 entryDemo) entryDemo true (by simp)).1

/-- Claim C10, as stated, is false on its HTTP-failure half: `apiCall` never
inspects `response.ok` or the status, so an HTTP 500 whose body parses as
`{success: true}` is returned verbatim — not as a `{success: false, ...}`
value. -/
theorem c10_counterexample :
    (domGetTickets cfgUDemo
        (.response false 500 "Internal Server Error"
          (.parsed (.obj [("success", .bool true)])))).1
      = .obj [("success", .bool true)]
  ∧ ((domGetTickets cfgUDemo
        (.response false 500 "Internal Server Error"
          (.parsed (.obj [("success", .bool true)])))).1).get "success"
      = some (.bool true)
  ∧ (some (Json.bool true) : Option Json) ≠ some (Json.bool false) := by
  refine ⟨rfl, rfl, fun hc => ?_⟩
  exact Bool.noConfusion (Json.bool.inj (Option.some.inj hc))

/-- Claim C10 as amended: `apiCall` is total at its interface — no exception
ever propagates.  A transport failure and a JSON-parse failure resolve to
`{success: false, error: message}`; the HTTP status is ignored, so any
response with a parseable JSON body (including a non-2xx one) resolves
verbatim to that body.  The four operation wrappers inherit this. -/
theorem c10_amended (cfg : ConfigU) (data : Option Json)
    (m t de em pr now statusStr : String) (ok : Bool) (status : Nat)
    (text : String) (j : Json) :
    (domApiCall cfg data (.reject m)).1 = jsonFalseError m
  ∧ (domApiCall cfg data (.response ok status text (.parseFail m))).1 = jsonFalseError m
  ∧ (domApiCall cfg data (.response ok status text (.parsed j))).1 = j
  ∧ (domGetTickets cfg (.reject m)).1 = jsonFalseError m
  ∧ (domCreateTicket cfg t de em pr now (.reject m)).1 = jsonFalseError m
  ∧ (domUpdateTicketStatus cfg j statusStr (.reject m)).1 = jsonFalseError m
  ∧ (domDeleteTicket cfg j (.reject m)).1 = jsonFalseError m := by
  exact ⟨rfl, rfl, rfl, rfl, rfl, rfl, rfl⟩
